import Mathlib

/-!
Verification of the loan-amortization and delinquency-classification logic
of the GE-ADISSON front end.

The two pieces of logic with design content are embedded here:

* the loan cost computation, which appears twice in the loans screen:
  once inside `handleCreateLoan` (no fallbacks on the parsed form fields)
  and once as the live preview (with `|| 0` / `|| 1` fallbacks);
* the delinquency logic of the late-payments screen: `getDaysLate`,
  the tier flags `isCritical` / `isWarning` with their rendering
  precedence, and the `filteredLate` filter predicate.

JavaScript numbers are modelled exactly: a finite value is a rational,
and the non-finite values Infinity, -Infinity and NaN are explicit
constructors, so that unguarded division by zero is visible in the model
instead of being collapsed to 0 as Lean's rational division would do.
-/

/-- A JavaScript number: a finite value (modelled exactly as a rational),
positive or negative Infinity, or NaN. -/
inductive JSNum where
  | fin (q : ℚ)
  | inf
  | negInf
  | nan
deriving DecidableEq, Repr

/-- JavaScript addition on `JSNum`. Finite addition is exact; Infinity
absorbs finite values; opposite infinities and NaN give NaN. -/
def jsAdd : JSNum → JSNum → JSNum
  | .nan, _ => .nan
  | _, .nan => .nan
  | .fin a, .fin b => .fin (a + b)
  | .fin _, .inf => .inf
  | .fin _, .negInf => .negInf
  | .inf, .fin _ => .inf
  | .negInf, .fin _ => .negInf
  | .inf, .inf => .inf
  | .negInf, .negInf => .negInf
  | .inf, .negInf => .nan
  | .negInf, .inf => .nan

/-- JavaScript multiplication on `JSNum`. Finite multiplication is exact;
zero times an infinity is NaN; infinities multiply by sign. -/
def jsMul : JSNum → JSNum → JSNum
  | .nan, _ => .nan
  | _, .nan => .nan
  | .fin a, .fin b => .fin (a * b)
  | .fin a, .inf => if 0 < a then .inf else if a < 0 then .negInf else .nan
  | .fin a, .negInf => if 0 < a then .negInf else if a < 0 then .inf else .nan
  | .inf, .fin b => if 0 < b then .inf else if b < 0 then .negInf else .nan
  | .negInf, .fin b => if 0 < b then .negInf else if b < 0 then .inf else .nan
  | .inf, .inf => .inf
  | .inf, .negInf => .negInf
  | .negInf, .inf => .negInf
  | .negInf, .negInf => .inf

/-- JavaScript division on `JSNum`. Division of a nonzero finite value by
zero yields a signed Infinity, 0/0 yields NaN, a finite value divided by
an infinity yields 0, and an infinity divided by an infinity yields NaN. -/
def jsDiv : JSNum → JSNum → JSNum
  | .nan, _ => .nan
  | _, .nan => .nan
  | .fin a, .fin b =>
      if b = 0 then (if 0 < a then .inf else if a < 0 then .negInf else .nan)
      else .fin (a / b)
  | .fin _, .inf => .fin 0
  | .fin _, .negInf => .fin 0
  | .inf, .fin b => if b < 0 then .negInf else .inf
  | .negInf, .fin b => if b < 0 then .inf else .negInf
  | .inf, .inf => .nan
  | .inf, .negInf => .nan
  | .negInf, .inf => .nan
  | .negInf, .negInf => .nan

/-- The JavaScript expression `a || b` on numbers: `b` when `a` is falsy
(zero or NaN), `a` otherwise. This is the fallback idiom used by the
loan preview: `parseFloat(...) || 0` and `parseInt(...) || 1`. -/
def jsOr (a b : JSNum) : JSNum :=
  match a with
  | .fin q => if q = 0 then b else a
  | .nan => b
  | _ => a

/-- The derived values of the loan cost computation. -/
structure AmortResult where
  totalInterest : JSNum
  totalAmount : JSNum
  installmentValue : JSNum
deriving DecidableEq, Repr

/-- The computation performed inside `handleCreateLoan` on the parsed form
fields (src/unnamed/part_002 lines 57-62): no fallback is applied to the
parse results, and the division by `count` is unguarded. -/
def handleCreateLoanCalc (capital rate count : JSNum) : AmortResult :=
  let totalInterest := jsMul capital (jsDiv rate (.fin 100))
  let totalAmount := jsAdd capital totalInterest
  let installmentValue := jsDiv totalAmount count
  ⟨totalInterest, totalAmount, installmentValue⟩

/-- The live cost preview (src/unnamed/part_002 lines 100-105): the parse
results of the capital and rate fields fall back to 0 via `|| 0`, the
parse result of the installment-count field falls back to 1 via `|| 1`,
and then the same three formulas are evaluated. The arguments are the
`parseFloat` / `parseInt` results of the three form fields. -/
def previewCalc (capitalRaw rateRaw countRaw : JSNum) : AmortResult :=
  let capital := jsOr capitalRaw (.fin 0)
  let rate := jsOr rateRaw (.fin 0)
  let count := jsOr countRaw (.fin 1)
  let totalInterest := jsMul capital (jsDiv rate (.fin 100))
  let totalAmount := jsAdd capital totalInterest
  let installmentValue := jsDiv totalAmount count
  ⟨totalInterest, totalAmount, installmentValue⟩

/-- Finite (neither an infinity nor NaN). -/
def isFin : JSNum → Bool
  | .fin _ => true
  | _ => false

/-- Finite or NaN: the possible results of `parseFloat` / `parseInt` on a
form field that does not spell out an infinity. -/
def isFinOrNan : JSNum → Bool
  | .fin _ => true
  | .nan => true
  | _ => false



/-- The `getDaysLate` computation of the late-payments screen
(src/unnamed/part_000 lines 88-91):
`Math.floor((new Date().getTime() - new Date(date).getTime()) / 86400000)`.
Timestamps are millisecond values; `Math.floor` of the real quotient is
floor division, `Int.fdiv`. The implicit `new Date()` clock read is made
an explicit argument `nowMs` so the computation can be stated at all. -/
def getDaysLate (dateMs nowMs : ℤ) : ℤ :=
  Int.fdiv (nowMs - dateMs) 86400000

/-- The per-row flag `isCritical = days >= 30` (src/unnamed/part_000
line 147). -/
def isCritical (days : ℤ) : Bool :=
  decide (30 ≤ days)

/-- The per-row flag `isWarning = days >= 7` (src/unnamed/part_000
line 148). -/
def isWarning (days : ℤ) : Bool :=
  decide (7 ≤ days)

/-- The delinquency tiers, ordered by severity. -/
inductive Tier where
  | CURRENT
  | WARNING
  | CRITICAL
deriving DecidableEq, Repr

/-- The tier a row is rendered with: everywhere in the late-payments
rendering the pattern is `isCritical ? critical : isWarning ? warning :
current`, so the critical test takes precedence (src/unnamed/part_000
lines 157-170). -/
def classify (days : ℤ) : Tier :=
  if isCritical days then .CRITICAL
  else if isWarning days then .WARNING
  else .CURRENT

/-- Severity rank of a tier, giving the order CURRENT < WARNING <
CRITICAL. -/
def tierRank : Tier → ℕ
  | .CURRENT => 0
  | .WARNING => 1
  | .CRITICAL => 2

/-- The `filteredLate` predicate (src/unnamed/part_000 lines 93-99):
for the filter buttons 3, 7 and 30 the row is kept when `days` reaches
the threshold, and for any other filter value (the TODOS button sets 0)
every row is kept. -/
def matchesFilter (days filter : ℤ) : Bool :=
  if filter = 3 then decide (3 ≤ days)
  else if filter = 7 then decide (7 ≤ days)
  else if filter = 30 then decide (30 ≤ days)
  else true

/-- The two account roles of the sign-up form. -/
inductive UserRole where
  | ADMIN
  | COLLECTOR
deriving DecidableEq, Repr

/-- The role chosen on sign-up (src/src/components/LoginPage.tsx line 61):
`(showAdminCode && adminCode === 'admin123') ? UserRole.ADMIN :
UserRole.COLLECTOR`. -/
def signUpRole (showAdminCode : Bool) (adminCode : String) : UserRole :=
  if showAdminCode && (adminCode == "admin123") then .ADMIN else .COLLECTOR


/-! ### Evaluation lemmas -/

/-- On finite inputs with a nonzero count, `handleCreateLoanCalc`
evaluates to the three textbook formulas. -/
theorem handleCreateLoanCalc_fin (P R N : ℚ) (hN : N ≠ 0) :
    handleCreateLoanCalc (.fin P) (.fin R) (.fin N) =
      ⟨.fin (P * (R / 100)), .fin (P + P * (R / 100)),
        .fin ((P + P * (R / 100)) / N)⟩ := by
  norm_num [handleCreateLoanCalc, jsMul, jsDiv, jsAdd, hN]

/-- On finite inputs with a nonzero count the preview's fallbacks are
inert, so the preview computes exactly what `handleCreateLoan`
computes. -/
theorem previewCalc_eq_create (P R N : ℚ) (hN : N ≠ 0) :
    previewCalc (.fin P) (.fin R) (.fin N) =
      handleCreateLoanCalc (.fin P) (.fin R) (.fin N) := by
  unfold previewCalc handleCreateLoanCalc
  by_cases hP : P = 0 <;> by_cases hR : R = 0 <;>
    simp [jsOr, hP, hR, hN]

/-- `getDaysLate` is Euclidean division of the millisecond difference by
the length of a day (the divisor is positive, so floor division and
Euclidean division agree). -/
theorem getDaysLate_eq_ediv (dateMs nowMs : ℤ) :
    getDaysLate dateMs nowMs = (nowMs - dateMs) / 86400000 := by
  unfold getDaysLate
  exact Int.fdiv_eq_ediv _ (by norm_num)

/-- A finite-or-NaN parse result falls back through `|| 0` to some finite
value. -/
theorem jsOr_zero_of_finOrNan (x : JSNum) (h : isFinOrNan x = true) :
    ∃ a : ℚ, jsOr x (.fin 0) = .fin a := by
  cases x with
  | fin q =>
      by_cases h0 : q = 0
      · exact ⟨0, by simp [jsOr, h0]⟩
      · exact ⟨q, by simp [jsOr, h0]⟩
  | nan => exact ⟨0, rfl⟩
  | inf => simp [isFinOrNan] at h
  | negInf => simp [isFinOrNan] at h

/-- A finite-or-NaN parse result falls back through `|| 1` to some finite
nonzero value. -/
theorem jsOr_one_of_finOrNan (x : JSNum) (h : isFinOrNan x = true) :
    ∃ b : ℚ, b ≠ 0 ∧ jsOr x (.fin 1) = .fin b := by
  cases x with
  | fin q =>
      by_cases h0 : q = 0
      · exact ⟨1, one_ne_zero, by simp [jsOr, h0]⟩
      · exact ⟨q, h0, by simp [jsOr, h0]⟩
  | nan => exact ⟨1, one_ne_zero, rfl⟩
  | inf => simp [isFinOrNan] at h
  | negInf => simp [isFinOrNan] at h

/-! ### Claim theorems -/

/-- C1: for every principal P ≥ 0, rate percent R ≥ 0 and installment
count N ≥ 1, the amortization computation returns
totalInterest = P * (R / 100), totalAmount = P + totalInterest and
installmentValue = totalAmount / N, both in the live preview and in the
values computed at loan creation. -/
theorem amortization_formula_preview_and_create (P R : ℚ) (N : ℤ)
    (hP : 0 ≤ P) (hR : 0 ≤ R) (hN : 1 ≤ N) :
    previewCalc (.fin P) (.fin R) (.fin (N : ℚ)) =
        ⟨.fin (P * (R / 100)), .fin (P + P * (R / 100)),
          .fin ((P + P * (R / 100)) / (N : ℚ))⟩ ∧
    handleCreateLoanCalc (.fin P) (.fin R) (.fin (N : ℚ)) =
        ⟨.fin (P * (R / 100)), .fin (P + P * (R / 100)),
          .fin ((P + P * (R / 100)) / (N : ℚ))⟩ := by
  have hN0 : (N : ℚ) ≠ 0 := Int.cast_ne_zero.mpr (by omega)
  refine ⟨?_, handleCreateLoanCalc_fin P R _ hN0⟩
  rw [previewCalc_eq_create P R _ hN0]
  exact handleCreateLoanCalc_fin P R _ hN0

/-- Witness for C1 at the worked example P = 1000, R = 10, N = 24. -/
theorem amortization_formula_witness :
    previewCalc (.fin 1000) (.fin 10) (.fin ((24 : ℤ) : ℚ)) =
        ⟨.fin (1000 * (10 / 100)), .fin (1000 + 1000 * (10 / 100)),
          .fin ((1000 + 1000 * (10 / 100)) / ((24 : ℤ) : ℚ))⟩ ∧
    handleCreateLoanCalc (.fin 1000) (.fin 10) (.fin ((24 : ℤ) : ℚ)) =
        ⟨.fin (1000 * (10 / 100)), .fin (1000 + 1000 * (10 / 100)),
          .fin ((1000 + 1000 * (10 / 100)) / ((24 : ℤ) : ℚ))⟩ :=
  amortization_formula_preview_and_create 1000 10 24 (by norm_num)
    (by norm_num) (by norm_num)

/-- C2 (evidence against the claim): invoked with installment count 0 at
the worked example P = 1000, R = 10, the loan-creation computation does
not fail with InvalidInput: it performs the division and yields Infinity
as the installment value. -/
theorem create_loan_count_zero_gives_infinity :
    handleCreateLoanCalc (.fin 1000) (.fin 10) (.fin 0) =
      ⟨.fin 100, .fin 1100, .inf⟩ := by
  norm_num [handleCreateLoanCalc, jsMul, jsDiv, jsAdd]

/-- C3 counterexample: with the due date one day after the reference time,
`getDaysLate` returns -1, a negative number, not the claimed clamp to 0. -/
theorem getDaysLate_future_due_negative_cex :
    getDaysLate 86400000 0 = -1 ∧ getDaysLate 86400000 0 < 0 := by decide

/-- C3 amended: `getDaysLate` is floor((now - due) / 1 day) with no
clamping: the result is nonnegative exactly when the due date is not in
the future, and negative (never clamped to 0) when it is. -/
theorem getDaysLate_fdiv_no_clamp (dateMs nowMs : ℤ) :
    getDaysLate dateMs nowMs = Int.fdiv (nowMs - dateMs) 86400000 ∧
    (0 ≤ getDaysLate dateMs nowMs ↔ dateMs ≤ nowMs) := by
  refine ⟨rfl, ?_⟩
  rw [getDaysLate_eq_ediv]
  omega

/-- C4: the rendered tier is CRITICAL exactly when daysLate ≥ 30, WARNING
exactly when 7 ≤ daysLate < 30 and CURRENT exactly when daysLate < 7,
with the critical test taking precedence; in particular at 6, 7, 29, 30. -/
theorem classify_tier_boundaries (d : ℤ) :
    (classify d = .CRITICAL ↔ 30 ≤ d) ∧
    (classify d = .WARNING ↔ 7 ≤ d ∧ d < 30) ∧
    (classify d = .CURRENT ↔ d < 7) ∧
    classify 6 = .CURRENT ∧ classify 7 = .WARNING ∧
    classify 29 = .WARNING ∧ classify 30 = .CRITICAL := by
  refine ⟨?_, ?_, ?_, by decide, by decide, by decide, by decide⟩ <;>
    · simp only [classify, isCritical, isWarning, decide_eq_true_eq]
      split_ifs <;> simp <;> omega

/-- C5: for every daysLate and every threshold among 0, 3, 7 and 30, the
late-payments filter keeps a row exactly when the threshold is 0 (the
TODOS button) or daysLate reaches the threshold. -/
theorem matchesFilter_threshold_iff (d t : ℤ)
    (h : t = 0 ∨ t = 3 ∨ t = 7 ∨ t = 30) :
    (matchesFilter d t = true ↔ t = 0 ∨ t ≤ d) := by
  rcases h with h | h | h | h <;> subst h <;> simp [matchesFilter]

/-- Witness for C5 at daysLate 5, threshold 3. -/
theorem matchesFilter_threshold_iff_witness :
    matchesFilter 5 3 = true ↔ (3 : ℤ) = 0 ∨ (3 : ℤ) ≤ 5 :=
  matchesFilter_threshold_iff 5 3 (by norm_num)

/-- C6: multiplying the computed installment value by the installment
count gives back exactly the computed total amount, in exact rational
arithmetic. -/
theorem installment_times_count_roundtrip (P R : ℚ) (N : ℤ)
    (hP : 0 ≤ P) (hR : 0 ≤ R) (hN : 1 ≤ N) :
    jsMul (previewCalc (.fin P) (.fin R) (.fin (N : ℚ))).installmentValue
        (.fin (N : ℚ)) =
      (previewCalc (.fin P) (.fin R) (.fin (N : ℚ))).totalAmount := by
  have hN0 : (N : ℚ) ≠ 0 := Int.cast_ne_zero.mpr (by omega)
  rw [previewCalc_eq_create P R _ hN0, handleCreateLoanCalc_fin P R _ hN0]
  simp only [jsMul, JSNum.fin.injEq]
  exact div_mul_cancel₀ _ hN0

/-- Witness for C6 at P = 1000, R = 10, N = 24. -/
theorem installment_times_count_roundtrip_witness :
    jsMul (previewCalc (.fin 1000) (.fin 10)
          (.fin ((24 : ℤ) : ℚ))).installmentValue (.fin ((24 : ℤ) : ℚ)) =
      (previewCalc (.fin 1000) (.fin 10) (.fin ((24 : ℤ) : ℚ))).totalAmount :=
  installment_times_count_roundtrip 1000 10 24 (by norm_num) (by norm_num)
    (by norm_num)

/-- C7 counterexample: `getDaysLate` does not depend only on the supplied
due date. The source supplies only the date string; the reference time is
an implicit `new Date()` read inside the function, and two reads one day
apart give different results for the identical supplied due date. -/
theorem getDaysLate_clock_dependence_cex :
    getDaysLate 0 0 ≠ getDaysLate 0 86400000 := by decide

/-- C7 amended: both computations are deterministic and idempotent in
their full input lists — identical capital, rate and count give identical
amortization results, and an identical due date together with an
identical clock reading gives an identical days-late value and tier; but
in the source the clock reading of `getDaysLate` is an implicit
`new Date()` read, not a supplied argument, so the days-late result is
fixed only once that implicit reading is fixed. -/
theorem calculators_deterministic (c₁ r₁ n₁ c₂ r₂ n₂ : JSNum)
    (d₁ t₁ d₂ t₂ : ℤ) (hc : c₁ = c₂) (hr : r₁ = r₂) (hn : n₁ = n₂)
    (hd : d₁ = d₂) (ht : t₁ = t₂) :
    previewCalc c₁ r₁ n₁ = previewCalc c₂ r₂ n₂ ∧
    handleCreateLoanCalc c₁ r₁ n₁ = handleCreateLoanCalc c₂ r₂ n₂ ∧
    getDaysLate d₁ t₁ = getDaysLate d₂ t₂ ∧
    classify (getDaysLate d₁ t₁) = classify (getDaysLate d₂ t₂) := by
  subst hc; subst hr; subst hn; subst hd; subst ht
  exact ⟨rfl, rfl, rfl, rfl⟩

/-- Witness for the amended C7 at concrete repeated inputs. -/
theorem calculators_deterministic_witness :
    previewCalc (.fin 1000) (.fin 10) (.fin 24) =
        previewCalc (.fin 1000) (.fin 10) (.fin 24) ∧
    handleCreateLoanCalc (.fin 1000) (.fin 10) (.fin 24) =
        handleCreateLoanCalc (.fin 1000) (.fin 10) (.fin 24) ∧
    getDaysLate 0 864000000 = getDaysLate 0 864000000 ∧
    classify (getDaysLate 0 864000000) = classify (getDaysLate 0 864000000) :=
  calculators_deterministic (.fin 1000) (.fin 10) (.fin 24) (.fin 1000)
    (.fin 10) (.fin 24) 0 864000000 0 864000000 rfl rfl rfl rfl rfl

/-- C8: the rendered tier is monotone in daysLate under the order
CURRENT < WARNING < CRITICAL, and the only thresholds anywhere in
classification and filtering are the fixed constants 3, 7 and 30: two
daysLate values on the same side of all three constants get the same
tier and the same filter verdict for every filter value. -/
theorem tier_monotone_and_fixed_thresholds :
    (∀ d e : ℤ, d ≤ e → tierRank (classify d) ≤ tierRank (classify e)) ∧
    (∀ d e : ℤ, ((3 ≤ d) ↔ (3 ≤ e)) → ((7 ≤ d) ↔ (7 ≤ e)) →
      ((30 ≤ d) ↔ (30 ≤ e)) →
      classify d = classify e ∧
        ∀ t : ℤ, matchesFilter d t = matchesFilter e t) := by
  constructor
  · intro d e hde
    simp only [classify, isCritical, isWarning, decide_eq_true_eq]
    split_ifs <;> simp [tierRank] <;> omega
  · intro d e h3 h7 h30
    constructor
    · simp only [classify, isCritical, isWarning, decide_eq_true_eq]
      split_ifs <;> tauto
    · intro t
      simp only [matchesFilter]
      split_ifs <;> simp [h3, h7, h30]

/-- Witness for C8 at concrete pairs: 5 ≤ 40 for monotonicity, and 8, 9
(on the same side of 3, 7 and 30) for threshold factoring. -/
theorem tier_monotone_and_fixed_thresholds_witness :
    tierRank (classify 5) ≤ tierRank (classify 40) ∧ classify 8 = classify 9 :=
  ⟨tier_monotone_and_fixed_thresholds.1 5 40 (by omega),
    (tier_monotone_and_fixed_thresholds.2 8 9 (by omega) (by omega)
      (by omega)).1⟩

/-- C9: the sign-up role is ADMIN exactly when the admin checkbox is
checked and the entered code is the hard-coded string admin123, and
COLLECTOR in every other case. -/
theorem signup_role_iff_admin_code (checked : Bool) (code : String) :
    (signUpRole checked code = .ADMIN ↔
        (checked = true ∧ code = "admin123")) ∧
    (signUpRole checked code = .COLLECTOR ↔
        ¬(checked = true ∧ code = "admin123")) := by
  cases checked <;> by_cases h : code = "admin123" <;>
    simp [signUpRole, beq_iff_eq, h]

/-- C10: in the cost preview, an unparsable (NaN) capital or rate falls
back to 0 and a count that parses to 0 or fails to parse falls back to 1;
the divisor after the fallback is never 0 and never NaN; for finite or
unparsable parse results all three displayed values are finite; and a
negative parsed count passes through the fallback unchanged into the
division, with no rejection. -/
theorem preview_fallbacks_and_finiteness (c r k : JSNum) (q : ℚ)
    (hc : isFinOrNan c = true) (hr : isFinOrNan r = true)
    (hk : isFinOrNan k = true) (hq : q < 0) :
    jsOr .nan (.fin 0) = .fin 0 ∧
    jsOr (.fin 0) (.fin 1) = .fin 1 ∧
    jsOr .nan (.fin 1) = .fin 1 ∧
    (∀ x : JSNum, jsOr x (.fin 1) ≠ .fin 0 ∧ jsOr x (.fin 1) ≠ .nan) ∧
    (isFin (previewCalc c r k).totalInterest = true ∧
      isFin (previewCalc c r k).totalAmount = true ∧
      isFin (previewCalc c r k).installmentValue = true) ∧
    previewCalc c r (.fin q) =
      handleCreateLoanCalc (jsOr c (.fin 0)) (jsOr r (.fin 0)) (.fin q) := by
  refine ⟨rfl, rfl, rfl, ?_, ?_, ?_⟩
  · intro x
    cases x with
    | fin q2 => by_cases h0 : q2 = 0 <;> simp [jsOr, h0]
    | inf => simp [jsOr]
    | negInf => simp [jsOr]
    | nan => simp [jsOr]
  · obtain ⟨a, ha⟩ := jsOr_zero_of_finOrNan c hc
    obtain ⟨a2, ha2⟩ := jsOr_zero_of_finOrNan r hr
    obtain ⟨b, hb0, hb⟩ := jsOr_one_of_finOrNan k hk
    have hpc : previewCalc c r k =
        handleCreateLoanCalc (.fin a) (.fin a2) (.fin b) := by
      unfold previewCalc handleCreateLoanCalc
      rw [ha, ha2, hb]
    rw [hpc, handleCreateLoanCalc_fin a a2 b hb0]
    exact ⟨rfl, rfl, rfl⟩
  · have hq0 : jsOr (.fin q) (.fin 1) = .fin q := by
      simp [jsOr, hq.ne]
    unfold previewCalc handleCreateLoanCalc
    rw [hq0]

/-- Witness for C10 with a finite capital of 1000, an unparsable rate and
a parsed count of -3. -/
theorem preview_fallbacks_and_finiteness_witness :
    jsOr .nan (.fin 0) = .fin 0 ∧
    jsOr (.fin 0) (.fin 1) = .fin 1 ∧
    jsOr .nan (.fin 1) = .fin 1 ∧
    (∀ x : JSNum, jsOr x (.fin 1) ≠ .fin 0 ∧ jsOr x (.fin 1) ≠ .nan) ∧
    (isFin (previewCalc (.fin 1000) .nan (.fin 24)).totalInterest = true ∧
      isFin (previewCalc (.fin 1000) .nan (.fin 24)).totalAmount = true ∧
      isFin (previewCalc (.fin 1000) .nan (.fin 24)).installmentValue = true) ∧
    previewCalc (.fin 1000) .nan (.fin (-3)) =
      handleCreateLoanCalc (jsOr (.fin 1000) (.fin 0)) (jsOr .nan (.fin 0))
        (.fin (-3)) :=
  preview_fallbacks_and_finiteness (.fin 1000) .nan (.fin 24) (-3)
    (by decide) (by decide) (by decide) (by norm_num)
